import Mathlib

/-!
Shallow embedding of the GraphQL-introspection-to-JSON-Schema converter
in `src/pkg/main.go`, together with the conversion step of the CLI driver
`runConversion` in `src/cmd/main.go` (lines 339-355, the part after input
acquisition and before serialization).

Modelling conventions:
* Go maps (`map[string]*JSONSchema6`) become association lists
  `List (String × JSONSchema6)`; Go map assignment is `upsert`, Go map
  indexing is `lookupKey`, Go `delete` is `eraseKey`.
* Go `nil` pointers and `nil` slices become `Option`.
* The `interface{}`-typed `Type` field of `JSONSchema6` only ever receives
  a JSON type name (string) or a list of names, captured by `SchemaTy`.
* `IntrospectionTypeRef.OfType` is a possibly-nil pointer to the same
  type; it is modelled with the specialised `OptionTypeRef` (isomorphic
  to `Option IntrospectionTypeRef`) so that the recursion in
  `processTypeRef` is structural.
-/

namespace GqlToJsonSchema

/-- Go map indexing `m[k]` (returning presence) for an association list. -/
def lookupKey {α : Type} : List (String × α) → String → Option α
  | [], _ => Option.none
  | (k', v) :: rest, k => if k' = k then Option.some v else lookupKey rest k

/-- Go map assignment `m[k] = v`: replace the entry for `k` in place if it
exists, otherwise add it. -/
def upsert {α : Type} : List (String × α) → String → α → List (String × α)
  | [], k, v => [(k, v)]
  | (k', v') :: rest, k, v =>
    if k' = k then (k, v) :: rest else (k', v') :: upsert rest k v

/-- Go `delete(m, k)`: remove the entry for `k` (keys are unique in a Go
map, so removing the first occurrence suffices). -/
def eraseKey {α : Type} : List (String × α) → String → List (String × α)
  | [], _ => []
  | (k', v') :: rest, k => if k' = k then rest else (k', v') :: eraseKey rest k

/-- The value stored in the `interface{}`-typed `Type` field of
`JSONSchema6`: a single JSON type name such as `"object"`, or a list of
names (`[]string{"string", "number"}` for `idTypeMapping = both`). -/
inductive SchemaTy : Type where
  | str (s : String)
  | strs (ss : List String)
deriving DecidableEq

/-- `JSONSchema6` from `src/pkg/main.go` lines 35-49.  Field order follows
the Go struct: `$schema`, `type`, `properties`, `items`, `$ref`,
`required`, `definitions`, `anyOf`, `oneOf`, `title`, `description`,
`default`, `enum`.  The `Default` field holds the raw JSON literal
string; the Go code feeds it through `encoding/json` (standard library,
outside this repository) and keeps the parsed value only on success —
no claim inspects the parsed representation, so the literal is stored
as given. -/
inductive JSONSchema6 : Type where
  | mk
    (schema : String)
    (type : Option SchemaTy)
    (properties : List (String × JSONSchema6))
    (items : Option JSONSchema6)
    (ref : String)
    (required : List String)
    (definitions : List (String × JSONSchema6))
    (anyOf : List JSONSchema6)
    (oneOf : List JSONSchema6)
    (title : String)
    (description : String)
    (default : Option String)
    (enum : List String)

namespace JSONSchema6

def schema : JSONSchema6 → String
  | .mk v _ _ _ _ _ _ _ _ _ _ _ _ => v

def type : JSONSchema6 → Option SchemaTy
  | .mk _ v _ _ _ _ _ _ _ _ _ _ _ => v

def properties : JSONSchema6 → List (String × JSONSchema6)
  | .mk _ _ v _ _ _ _ _ _ _ _ _ _ => v

def items : JSONSchema6 → Option JSONSchema6
  | .mk _ _ _ v _ _ _ _ _ _ _ _ _ => v

def ref : JSONSchema6 → String
  | .mk _ _ _ _ v _ _ _ _ _ _ _ _ => v

def required : JSONSchema6 → List String
  | .mk _ _ _ _ _ v _ _ _ _ _ _ _ => v

def definitions : JSONSchema6 → List (String × JSONSchema6)
  | .mk _ _ _ _ _ _ v _ _ _ _ _ _ => v

def anyOf : JSONSchema6 → List JSONSchema6
  | .mk _ _ _ _ _ _ _ v _ _ _ _ _ => v

def oneOf : JSONSchema6 → List JSONSchema6
  | .mk _ _ _ _ _ _ _ _ v _ _ _ _ => v

def title : JSONSchema6 → String
  | .mk _ _ _ _ _ _ _ _ _ v _ _ _ => v

def description : JSONSchema6 → String
  | .mk _ _ _ _ _ _ _ _ _ _ v _ _ => v

def default : JSONSchema6 → Option String
  | .mk _ _ _ _ _ _ _ _ _ _ _ v _ => v

def enum : JSONSchema6 → List String
  | .mk _ _ _ _ _ _ _ _ _ _ _ _ v => v

def setSchema : JSONSchema6 → String → JSONSchema6
  | .mk _ b c d e f g h i j k l m, v => .mk v b c d e f g h i j k l m

def setType : JSONSchema6 → Option SchemaTy → JSONSchema6
  | .mk a _ c d e f g h i j k l m, v => .mk a v c d e f g h i j k l m

def setProperties : JSONSchema6 → List (String × JSONSchema6) → JSONSchema6
  | .mk a b _ d e f g h i j k l m, v => .mk a b v d e f g h i j k l m

def setItems : JSONSchema6 → Option JSONSchema6 → JSONSchema6
  | .mk a b c _ e f g h i j k l m, v => .mk a b c v e f g h i j k l m

def setRef : JSONSchema6 → String → JSONSchema6
  | .mk a b c d _ f g h i j k l m, v => .mk a b c d v f g h i j k l m

def setRequired : JSONSchema6 → List String → JSONSchema6
  | .mk a b c d e _ g h i j k l m, v => .mk a b c d e v g h i j k l m

def setDefinitions : JSONSchema6 → List (String × JSONSchema6) → JSONSchema6
  | .mk a b c d e f _ h i j k l m, v => .mk a b c d e f v h i j k l m

def setAnyOf : JSONSchema6 → List JSONSchema6 → JSONSchema6
  | .mk a b c d e f g _ i j k l m, v => .mk a b c d e f g v i j k l m

def setOneOf : JSONSchema6 → List JSONSchema6 → JSONSchema6
  | .mk a b c d e f g h _ j k l m, v => .mk a b c d e f g h v j k l m

def setTitle : JSONSchema6 → String → JSONSchema6
  | .mk a b c d e f g h i _ k l m, v => .mk a b c d e f g h i v k l m

def setDescription : JSONSchema6 → String → JSONSchema6
  | .mk a b c d e f g h i j _ l m, v => .mk a b c d e f g h i j v l m

def setDefault : JSONSchema6 → Option String → JSONSchema6
  | .mk a b c d e f g h i j k _ m, v => .mk a b c d e f g h i j k v m

def setEnum : JSONSchema6 → List String → JSONSchema6
  | .mk a b c d e f g h i j k l _, v => .mk a b c d e f g h i j k l v

end JSONSchema6

/-- The zero value `&JSONSchema6{}` of the Go struct: empty strings, nil
pointers, nil slices and nil maps. -/
def emptySchema : JSONSchema6 :=
  .mk "" Option.none [] Option.none "" [] [] [] [] "" "" Option.none []

/-- `IDTypeMapping` (`src/pkg/main.go` line 9) is a string type. -/
abbrev IDTypeMapping := String

def IDTypeString : IDTypeMapping := "string"

def IDTypeNumber : IDTypeMapping := "number"

def IDTypeBoth : IDTypeMapping := "both"

def IDTypeDefaultMode : IDTypeMapping := IDTypeString

/-- `Options` (`src/pkg/main.go` lines 19-23). -/
structure Options : Type where
  ignoreInternals : Bool
  nullableArrayItems : Bool
  idTypeMapping : IDTypeMapping
deriving DecidableEq

/-- `DefaultOptions` (`src/pkg/main.go` lines 26-32). -/
def DefaultOptions : Options :=
  { ignoreInternals := true
    nullableArrayItems := false
    idTypeMapping := IDTypeDefaultMode }

/-- `TypeRef` (`src/pkg/main.go` lines 64-66). -/
structure TypeRef : Type where
  name : String
deriving DecidableEq

mutual

/-- `IntrospectionTypeRef` (`src/pkg/main.go` lines 111-115): `Kind`,
optional `Name` (`*string`), optional nested reference (`*IntrospectionTypeRef`). -/
inductive IntrospectionTypeRef : Type where
  | mk (kind : String) (name : Option String) (ofType : OptionTypeRef)

/-- The possibly-nil `OfType *IntrospectionTypeRef` pointer, specialised so
that recursion through it is structural. -/
inductive OptionTypeRef : Type where
  | none
  | some (r : IntrospectionTypeRef)

end

namespace IntrospectionTypeRef

def kind : IntrospectionTypeRef → String
  | .mk v _ _ => v

def name : IntrospectionTypeRef → Option String
  | .mk _ v _ => v

def ofType : IntrospectionTypeRef → OptionTypeRef
  | .mk _ _ v => v

end IntrospectionTypeRef

/-- `IntrospectionEnum` (`src/pkg/main.go` lines 105-108). -/
structure IntrospectionEnum : Type where
  name : String
  description : String

/-- `IntrospectionArg` (`src/pkg/main.go` lines 97-102). -/
structure IntrospectionArg : Type where
  name : String
  description : String
  type : IntrospectionTypeRef
  defaultValue : Option String

/-- `IntrospectionInput` (`src/pkg/main.go` lines 89-94). -/
structure IntrospectionInput : Type where
  name : String
  description : String
  type : IntrospectionTypeRef
  defaultValue : Option String

/-- `IntrospectionField` (`src/pkg/main.go` lines 81-86).
`Args` is a slice that may be nil. -/
structure IntrospectionField : Type where
  name : String
  description : String
  args : Option (List IntrospectionArg)
  type : IntrospectionTypeRef

/-- `IntrospectionType` (`src/pkg/main.go` lines 69-78).  Recursive because
`PossibleTypes` is a slice of `IntrospectionType`; all slices may be nil. -/
inductive IntrospectionType : Type where
  | mk
    (kind : String)
    (name : String)
    (description : String)
    (fields : Option (List IntrospectionField))
    (inputFields : Option (List IntrospectionInput))
    (interfaces : Option (List TypeRef))
    (enumValues : Option (List IntrospectionEnum))
    (possibleTypes : Option (List IntrospectionType))

namespace IntrospectionType

def kind : IntrospectionType → String
  | .mk v _ _ _ _ _ _ _ => v

def name : IntrospectionType → String
  | .mk _ v _ _ _ _ _ _ => v

def description : IntrospectionType → String
  | .mk _ _ v _ _ _ _ _ => v

def fields : IntrospectionType → Option (List IntrospectionField)
  | .mk _ _ _ v _ _ _ _ => v

def inputFields : IntrospectionType → Option (List IntrospectionInput)
  | .mk _ _ _ _ v _ _ _ => v

def interfaces : IntrospectionType → Option (List TypeRef)
  | .mk _ _ _ _ _ v _ _ => v

def enumValues : IntrospectionType → Option (List IntrospectionEnum)
  | .mk _ _ _ _ _ _ v _ => v

def possibleTypes : IntrospectionType → Option (List IntrospectionType)
  | .mk _ _ _ _ _ _ _ v => v

end IntrospectionType

/-- `IntrospectionSchema` (`src/pkg/main.go` lines 57-61): `QueryType` and
`MutationType` are possibly-nil pointers, `Types` a possibly-nil slice. -/
structure IntrospectionSchema : Type where
  queryType : Option TypeRef
  mutationType : Option TypeRef
  types : Option (List IntrospectionType)

/-- `IntrospectionQuery` (`src/pkg/main.go` lines 52-54). -/
structure IntrospectionQuery : Type where
  schema : IntrospectionSchema

/-- `isRootType` (`src/pkg/main.go` lines 158-160). -/
def isRootType (name : String) : Bool :=
  name == "Query" || name == "Mutation"

/-- `findType` (`src/pkg/main.go` lines 162-169): first type whose name
matches, or nil. -/
def findType (types : List IntrospectionType) (name : String) : Option IntrospectionType :=
  types.find? (fun t => t.name == name)

/-- `filterTypes` (`src/pkg/main.go` lines 171-183).  The Go keep-condition
is `len(t.Name) < 2 || t.Name[:2] != "__"`; `t.Name[:2]` slices the first
two bytes, which for the ASCII pattern `"__"` coincide with the first two
characters, so it is rendered as `t.name.data.take 2`. -/
def filterTypes (types : List IntrospectionType) (ignoreInternals : Bool) :
    List IntrospectionType :=
  if !ignoreInternals then types
  else types.filter (fun t =>
    decide (t.name.length < 2) || t.name.data.take 2 != ['_', '_'])

/-- `isRequired` (`src/pkg/main.go` lines 389-391). -/
def isRequired (typeRef : IntrospectionTypeRef) : Bool :=
  typeRef.kind == "NON_NULL"

/-- `IsValidIDTypeMapping` (`src/pkg/main.go` lines 394-403): the loop over
`validMappings` returning true on the first match is a membership test. -/
def IsValidIDTypeMapping (mapping : IDTypeMapping) : Bool :=
  let validMappings : List IDTypeMapping := ["string", "number", "both"]
  validMappings.contains mapping

/-- Fixed description text of the `ID` scalar (`src/pkg/main.go` line 363). -/
def idScalarDescription : String :=
  "The `ID` scalar type represents a unique identifier, often used to refetch an object or as key for a cache. The ID type appears in a JSON response as a String; however, it is not intended to be human-readable. When expected as an input type, any string (such as `\"4\"`) or integer (such as `4`) input value will be accepted as an ID."

/-- Fixed description text of the `String` scalar (`src/pkg/main.go` line 376). -/
def stringScalarDescription : String :=
  "The `String` scalar type represents textual data, represented as UTF-8 character sequences. The String type is most often used by GraphQL to represent free-form human-readable text."

/-- Fixed description text of the `Boolean` scalar (`src/pkg/main.go` line 383). -/
def booleanScalarDescription : String :=
  "The `Boolean` scalar type represents `true` or `false`."

/-- `processScalar` (`src/pkg/main.go` lines 356-387): start from
`{Title: name}` and switch on the scalar name; the `ID` case sets the
description and then switches on the configured `idMapping`. -/
def processScalar (name : String) (idMapping : IDTypeMapping) : JSONSchema6 :=
  let schema := emptySchema.setTitle name
  match name with
  | "ID" =>
    let schema := schema.setDescription idScalarDescription
    match idMapping with
    | "number" => schema.setType (Option.some (.str "number"))
    | "both" => schema.setType (Option.some (.strs ["string", "number"]))
    | _ => schema.setType (Option.some (.str "string"))
  | "String" =>
    (schema.setType (Option.some (.str "string"))).setDescription stringScalarDescription
  | "Int" => schema.setType (Option.some (.str "number"))
  | "Float" => schema.setType (Option.some (.str "number"))
  | "Boolean" =>
    (schema.setType (Option.some (.str "boolean"))).setDescription booleanScalarDescription
  | _ => schema

/-- `processTypeRef` (`src/pkg/main.go` lines 314-354). -/
def processTypeRef : IntrospectionTypeRef → Options → JSONSchema6
  | .mk "NON_NULL" _ (.some inner), opts => processTypeRef inner opts
  | .mk "NON_NULL" _ .none, _ => emptySchema
  | .mk "LIST" _ (.some inner), opts =>
    let items := processTypeRef inner opts
    let schema := (emptySchema.setType (Option.some (.str "array"))).setItems (Option.some items)
    if opts.nullableArrayItems && !(isRequired inner) then
      schema.setItems (Option.some (emptySchema.setAnyOf
        [items, emptySchema.setType (Option.some (.str "null"))]))
    else
      schema
  | .mk "LIST" _ .none, _ => emptySchema.setType (Option.some (.str "array"))
  | .mk "SCALAR" (Option.some n) _, opts => processScalar n opts.idTypeMapping
  | .mk "SCALAR" Option.none _, _ => emptySchema
  | .mk _ (Option.some n) _, _ => emptySchema.setRef ("#/definitions/" ++ n)
  | .mk _ Option.none _, _ => emptySchema

/-- `processArg` (`src/pkg/main.go` lines 300-312).  The Go code parses the
raw default literal with `encoding/json` (standard library) and stores the
parsed value only when parsing succeeds; the literal is kept verbatim here
(see the note on `JSONSchema6.default`). -/
def processArg (arg : IntrospectionArg) (opts : Options) : JSONSchema6 :=
  let schema := (processTypeRef arg.type opts).setDescription arg.description
  match arg.defaultValue with
  | Option.some defaultValue => schema.setDefault (Option.some defaultValue)
  | Option.none => schema

/-- `processInputValue` (`src/pkg/main.go` lines 286-298); same default
handling note as `processArg`. -/
def processInputValue (input : IntrospectionInput) (opts : Options) : JSONSchema6 :=
  let schema := (processTypeRef input.type opts).setDescription input.description
  match input.defaultValue with
  | Option.some defaultValue => schema.setDefault (Option.some defaultValue)
  | Option.none => schema

/-- `processField` (`src/pkg/main.go` lines 251-284).  The single Go loop
over `field.Args` both inserts each processed argument and collects the
required names in order; it is rendered as an insertion fold plus an
order-preserving filter-map for the required list. -/
def processField (field : IntrospectionField) (opts : Options) : JSONSchema6 :=
  let schema :=
    ((emptySchema.setType (Option.some (.str "object"))).setProperties []).setDescription
      field.description
  let schema := schema.setProperties
    (upsert schema.properties "return" (processTypeRef field.type opts))
  let args := (emptySchema.setType (Option.some (.str "object"))).setProperties []
  let args :=
    match field.args with
    | Option.some argList =>
      args.setProperties (argList.foldl
        (fun acc arg => upsert acc arg.name (processArg arg opts)) args.properties)
    | Option.none => args
  let required : List String :=
    match field.args with
    | Option.some argList =>
      (argList.filter (fun arg => isRequired arg.type)).map (fun arg => arg.name)
    | Option.none => ([] : List String)
  let args := if required.length > 0 then args.setRequired required else args
  schema.setProperties (upsert schema.properties "arguments" args)

/-- `processType` (`src/pkg/main.go` lines 185-249).  The field loops are
rendered like in `processField`; the append loops building `anyOf` (ENUM)
and `oneOf` (UNION) are order-preserving maps.  Note that in the UNION
case the Go code executes `delete(schema.Properties, "type")`, which
removes the key `"type"` from the (empty) properties map and leaves the
`Type` field untouched. -/
def processType (t : IntrospectionType) (opts : Options) : JSONSchema6 :=
  let schema :=
    ((emptySchema.setType (Option.some (.str "object"))).setProperties []).setDescription
      t.description
  match t.kind with
  | "OBJECT" | "INTERFACE" =>
    match t.fields with
    | Option.some fields =>
      let schema := schema.setProperties (fields.foldl
        (fun acc field => upsert acc field.name (processField field opts)) schema.properties)
      let required : List String :=
        ((fields.filter (fun field => isRequired field.type)).map
          (fun field => field.name) : List String)
      if required.length > 0 then schema.setRequired required else schema
    | Option.none => schema
  | "INPUT_OBJECT" =>
    match t.inputFields with
    | Option.some inputFields =>
      let schema := schema.setProperties (inputFields.foldl
        (fun acc field => upsert acc field.name (processInputValue field opts))
        schema.properties)
      let required : List String :=
        ((inputFields.filter (fun field => isRequired field.type)).map
          (fun field => field.name) : List String)
      if required.length > 0 then schema.setRequired required else schema
    | Option.none => schema
  | "ENUM" =>
    let schema := schema.setType (Option.some (.str "string"))
    let anyOf :=
      match t.enumValues with
      | Option.some enumValues =>
        enumValues.map (fun enumValue =>
          ((emptySchema.setEnum [enumValue.name]).setTitle enumValue.description).setDescription
            enumValue.description)
      | Option.none => []
    schema.setAnyOf anyOf
  | "UNION" =>
    let schema := schema.setProperties (eraseKey schema.properties "type")
    let oneOf :=
      match t.possibleTypes with
      | Option.some possibleTypes =>
        possibleTypes.map (fun possibleType =>
          emptySchema.setRef ("#/definitions/" ++ possibleType.name))
      | Option.none => []
    schema.setOneOf oneOf
  | _ => schema

/-- The definitions loop of `FromIntrospectionQuery`
(`src/pkg/main.go` lines 146-150). -/
def buildDefinitions (filteredTypes : List IntrospectionType) (opts : Options)
    (defs : List (String × JSONSchema6)) : List (String × JSONSchema6) :=
  filteredTypes.foldl
    (fun acc t => if !(isRootType t.name) then upsert acc t.name (processType t opts) else acc)
    defs

/-- `FromIntrospectionQuery` (`src/pkg/main.go` lines 118-154).  The Go
function returns `(*JSONSchema6, error)` and always returns a nil error;
the error is modelled as `Option String`. -/
def FromIntrospectionQuery (introspection : IntrospectionQuery) (opts : Option Options) :
    JSONSchema6 × Option String :=
  let opts :=
    match opts with
    | Option.none => DefaultOptions
    | Option.some o => o
  let schema :=
    ((emptySchema.setSchema "http://json-schema.org/draft-06/schema#").setProperties
      []).setDefinitions []
  let schema :=
    match introspection.schema.queryType, introspection.schema.types with
    | Option.some qt, Option.some types =>
      match findType types qt.name with
      | Option.some queryType =>
        schema.setProperties (upsert schema.properties "Query" (processType queryType opts))
      | Option.none => schema
    | _, _ => schema
  let schema :=
    match introspection.schema.mutationType, introspection.schema.types with
    | Option.some mt, Option.some types =>
      match findType types mt.name with
      | Option.some mutationType =>
        schema.setProperties (upsert schema.properties "Mutation" (processType mutationType opts))
      | Option.none => schema
    | _, _ => schema
  let schema :=
    match introspection.schema.types with
    | Option.some types =>
      schema.setDefinitions
        (buildDefinitions (filterTypes types opts.ignoreInternals) opts schema.definitions)
    | Option.none => schema
  (schema, Option.none)

/-- The conversion step of `runConversion` (`src/cmd/main.go` lines
339-355): validate the configured `id-type` mapping, build the `Options`
record from the configured values, call the core conversion and wrap its
error, stopping before serialization and output writing (I/O plumbing). -/
def runConversion (idType : String) (ignoreInternals nullableArrayItems : Bool)
    (introspection : IntrospectionQuery) : Except String JSONSchema6 :=
  if !(IsValidIDTypeMapping idType) then
    Except.error ("invalid id-type mapping: " ++ idType)
  else
    let opts : Options :=
      { ignoreInternals := ignoreInternals
        nullableArrayItems := nullableArrayItems
        idTypeMapping := idType }
    match FromIntrospectionQuery introspection (Option.some opts) with
    | (_, Option.some e) => Except.error ("error converting to JSON Schema: " ++ e)
    | (schema, Option.none) => Except.ok schema

/-- A minimal `OBJECT` type named `Cat` used as a union member. -/
def catType : IntrospectionType :=
  .mk "OBJECT" "Cat" "" Option.none Option.none Option.none Option.none Option.none

/-- A minimal `OBJECT` type named `Dog` used as a union member. -/
def dogType : IntrospectionType :=
  .mk "OBJECT" "Dog" "" Option.none Option.none Option.none Option.none Option.none

/-- A `UNION` type with two possible types, `Cat` and `Dog`. -/
def petUnionType : IntrospectionType :=
  .mk "UNION" "Pet" "" Option.none Option.none Option.none Option.none
    (Option.some [catType, dogType])

/-- The field `ping` of the C6 scenario: return type `NON_NULL` wrapping
`SCALAR Boolean`, no arguments. -/
def pingField : IntrospectionField :=
  { name := "ping", description := "", args := Option.none,
    type := .mk "NON_NULL" Option.none (.some (.mk "SCALAR" (Option.some "Boolean") .none)) }

/-- The `Query` object type of the C6 scenario, with the single field
`ping`. -/
def pingQueryType : IntrospectionType :=
  .mk "OBJECT" "Query" "" (Option.some [pingField]) Option.none Option.none Option.none
    Option.none

/-- The C6 scenario document:
`{queryType: {name: "Query"}, types: [Query]}`. -/
def pingDoc : IntrospectionQuery :=
  ⟨⟨Option.some ⟨"Query"⟩, Option.none, Option.some [pingQueryType]⟩⟩

/-- The node C6 claims for `properties.Query.properties.ping.properties.return`
("and nothing else in that node"): only `type: boolean` and the Boolean
scalar description. -/
def claimedPingReturnNode : JSONSchema6 :=
  (emptySchema.setType (Option.some (.str "boolean"))).setDescription booleanScalarDescription

/-- Claim-side description of the definitions map (used to state C1): the
last type in the list bearing the given non-root name, mapped through
`processType` — Go map assignment is last-write-wins. -/
def lastNonRootDef : List IntrospectionType → Options → String → Option JSONSchema6
  | [], _, _ => Option.none
  | t :: rest, o, k =>
    match lastNonRootDef rest o k with
    | Option.some v => Option.some v
    | Option.none =>
      if !(isRootType t.name) && t.name == k then Option.some (processType t o)
      else Option.none

/-- An `OBJECT` type named `RootQuery`, used as a declared query root whose
name differs from the hardcoded `"Query"`. -/
def rootQueryType : IntrospectionType :=
  .mk "OBJECT" "RootQuery" "" (Option.some []) Option.none Option.none Option.none
    Option.none

/-- A document whose declared query root type is named `RootQuery`. -/
def customRootDoc : IntrospectionQuery :=
  ⟨⟨Option.some ⟨"RootQuery"⟩, Option.none, Option.some [rootQueryType]⟩⟩

/-! ## Schema node field lemmas -/

namespace JSONSchema6

/-! Projection/setter simp lemmas: each setter changes exactly its own field. -/

@[simp] theorem schema_setSchema (s : JSONSchema6) (v) : (s.setSchema v).schema = v := by
  cases s; rfl

@[simp] theorem type_setSchema (s : JSONSchema6) (v) : (s.setSchema v).type = s.type := by
  cases s; rfl

@[simp] theorem properties_setSchema (s : JSONSchema6) (v) : (s.setSchema v).properties = s.properties := by
  cases s; rfl

@[simp] theorem items_setSchema (s : JSONSchema6) (v) : (s.setSchema v).items = s.items := by
  cases s; rfl

@[simp] theorem ref_setSchema (s : JSONSchema6) (v) : (s.setSchema v).ref = s.ref := by
  cases s; rfl

@[simp] theorem required_setSchema (s : JSONSchema6) (v) : (s.setSchema v).required = s.required := by
  cases s; rfl

@[simp] theorem definitions_setSchema (s : JSONSchema6) (v) : (s.setSchema v).definitions = s.definitions := by
  cases s; rfl

@[simp] theorem anyOf_setSchema (s : JSONSchema6) (v) : (s.setSchema v).anyOf = s.anyOf := by
  cases s; rfl

@[simp] theorem oneOf_setSchema (s : JSONSchema6) (v) : (s.setSchema v).oneOf = s.oneOf := by
  cases s; rfl

@[simp] theorem title_setSchema (s : JSONSchema6) (v) : (s.setSchema v).title = s.title := by
  cases s; rfl

@[simp] theorem description_setSchema (s : JSONSchema6) (v) : (s.setSchema v).description = s.description := by
  cases s; rfl

@[simp] theorem default_setSchema (s : JSONSchema6) (v) : (s.setSchema v).default = s.default := by
  cases s; rfl

@[simp] theorem enum_setSchema (s : JSONSchema6) (v) : (s.setSchema v).enum = s.enum := by
  cases s; rfl

@[simp] theorem schema_setType (s : JSONSchema6) (v) : (s.setType v).schema = s.schema := by
  cases s; rfl

@[simp] theorem type_setType (s : JSONSchema6) (v) : (s.setType v).type = v := by
  cases s; rfl

@[simp] theorem properties_setType (s : JSONSchema6) (v) : (s.setType v).properties = s.properties := by
  cases s; rfl

@[simp] theorem items_setType (s : JSONSchema6) (v) : (s.setType v).items = s.items := by
  cases s; rfl

@[simp] theorem ref_setType (s : JSONSchema6) (v) : (s.setType v).ref = s.ref := by
  cases s; rfl

@[simp] theorem required_setType (s : JSONSchema6) (v) : (s.setType v).required = s.required := by
  cases s; rfl

@[simp] theorem definitions_setType (s : JSONSchema6) (v) : (s.setType v).definitions = s.definitions := by
  cases s; rfl

@[simp] theorem anyOf_setType (s : JSONSchema6) (v) : (s.setType v).anyOf = s.anyOf := by
  cases s; rfl

@[simp] theorem oneOf_setType (s : JSONSchema6) (v) : (s.setType v).oneOf = s.oneOf := by
  cases s; rfl

@[simp] theorem title_setType (s : JSONSchema6) (v) : (s.setType v).title = s.title := by
  cases s; rfl

@[simp] theorem description_setType (s : JSONSchema6) (v) : (s.setType v).description = s.description := by
  cases s; rfl

@[simp] theorem default_setType (s : JSONSchema6) (v) : (s.setType v).default = s.default := by
  cases s; rfl

@[simp] theorem enum_setType (s : JSONSchema6) (v) : (s.setType v).enum = s.enum := by
  cases s; rfl

@[simp] theorem schema_setProperties (s : JSONSchema6) (v) : (s.setProperties v).schema = s.schema := by
  cases s; rfl

@[simp] theorem type_setProperties (s : JSONSchema6) (v) : (s.setProperties v).type = s.type := by
  cases s; rfl

@[simp] theorem properties_setProperties (s : JSONSchema6) (v) : (s.setProperties v).properties = v := by
  cases s; rfl

@[simp] theorem items_setProperties (s : JSONSchema6) (v) : (s.setProperties v).items = s.items := by
  cases s; rfl

@[simp] theorem ref_setProperties (s : JSONSchema6) (v) : (s.setProperties v).ref = s.ref := by
  cases s; rfl

@[simp] theorem required_setProperties (s : JSONSchema6) (v) : (s.setProperties v).required = s.required := by
  cases s; rfl

@[simp] theorem definitions_setProperties (s : JSONSchema6) (v) : (s.setProperties v).definitions = s.definitions := by
  cases s; rfl

@[simp] theorem anyOf_setProperties (s : JSONSchema6) (v) : (s.setProperties v).anyOf = s.anyOf := by
  cases s; rfl

@[simp] theorem oneOf_setProperties (s : JSONSchema6) (v) : (s.setProperties v).oneOf = s.oneOf := by
  cases s; rfl

@[simp] theorem title_setProperties (s : JSONSchema6) (v) : (s.setProperties v).title = s.title := by
  cases s; rfl

@[simp] theorem description_setProperties (s : JSONSchema6) (v) : (s.setProperties v).description = s.description := by
  cases s; rfl

@[simp] theorem default_setProperties (s : JSONSchema6) (v) : (s.setProperties v).default = s.default := by
  cases s; rfl

@[simp] theorem enum_setProperties (s : JSONSchema6) (v) : (s.setProperties v).enum = s.enum := by
  cases s; rfl

@[simp] theorem schema_setItems (s : JSONSchema6) (v) : (s.setItems v).schema = s.schema := by
  cases s; rfl

@[simp] theorem type_setItems (s : JSONSchema6) (v) : (s.setItems v).type = s.type := by
  cases s; rfl

@[simp] theorem properties_setItems (s : JSONSchema6) (v) : (s.setItems v).properties = s.properties := by
  cases s; rfl

@[simp] theorem items_setItems (s : JSONSchema6) (v) : (s.setItems v).items = v := by
  cases s; rfl

@[simp] theorem ref_setItems (s : JSONSchema6) (v) : (s.setItems v).ref = s.ref := by
  cases s; rfl

@[simp] theorem required_setItems (s : JSONSchema6) (v) : (s.setItems v).required = s.required := by
  cases s; rfl

@[simp] theorem definitions_setItems (s : JSONSchema6) (v) : (s.setItems v).definitions = s.definitions := by
  cases s; rfl

@[simp] theorem anyOf_setItems (s : JSONSchema6) (v) : (s.setItems v).anyOf = s.anyOf := by
  cases s; rfl

@[simp] theorem oneOf_setItems (s : JSONSchema6) (v) : (s.setItems v).oneOf = s.oneOf := by
  cases s; rfl

@[simp] theorem title_setItems (s : JSONSchema6) (v) : (s.setItems v).title = s.title := by
  cases s; rfl

@[simp] theorem description_setItems (s : JSONSchema6) (v) : (s.setItems v).description = s.description := by
  cases s; rfl

@[simp] theorem default_setItems (s : JSONSchema6) (v) : (s.setItems v).default = s.default := by
  cases s; rfl

@[simp] theorem enum_setItems (s : JSONSchema6) (v) : (s.setItems v).enum = s.enum := by
  cases s; rfl

@[simp] theorem schema_setRef (s : JSONSchema6) (v) : (s.setRef v).schema = s.schema := by
  cases s; rfl

@[simp] theorem type_setRef (s : JSONSchema6) (v) : (s.setRef v).type = s.type := by
  cases s; rfl

@[simp] theorem properties_setRef (s : JSONSchema6) (v) : (s.setRef v).properties = s.properties := by
  cases s; rfl

@[simp] theorem items_setRef (s : JSONSchema6) (v) : (s.setRef v).items = s.items := by
  cases s; rfl

@[simp] theorem ref_setRef (s : JSONSchema6) (v) : (s.setRef v).ref = v := by
  cases s; rfl

@[simp] theorem required_setRef (s : JSONSchema6) (v) : (s.setRef v).required = s.required := by
  cases s; rfl

@[simp] theorem definitions_setRef (s : JSONSchema6) (v) : (s.setRef v).definitions = s.definitions := by
  cases s; rfl

@[simp] theorem anyOf_setRef (s : JSONSchema6) (v) : (s.setRef v).anyOf = s.anyOf := by
  cases s; rfl

@[simp] theorem oneOf_setRef (s : JSONSchema6) (v) : (s.setRef v).oneOf = s.oneOf := by
  cases s; rfl

@[simp] theorem title_setRef (s : JSONSchema6) (v) : (s.setRef v).title = s.title := by
  cases s; rfl

@[simp] theorem description_setRef (s : JSONSchema6) (v) : (s.setRef v).description = s.description := by
  cases s; rfl

@[simp] theorem default_setRef (s : JSONSchema6) (v) : (s.setRef v).default = s.default := by
  cases s; rfl

@[simp] theorem enum_setRef (s : JSONSchema6) (v) : (s.setRef v).enum = s.enum := by
  cases s; rfl

@[simp] theorem schema_setRequired (s : JSONSchema6) (v) : (s.setRequired v).schema = s.schema := by
  cases s; rfl

@[simp] theorem type_setRequired (s : JSONSchema6) (v) : (s.setRequired v).type = s.type := by
  cases s; rfl

@[simp] theorem properties_setRequired (s : JSONSchema6) (v) : (s.setRequired v).properties = s.properties := by
  cases s; rfl

@[simp] theorem items_setRequired (s : JSONSchema6) (v) : (s.setRequired v).items = s.items := by
  cases s; rfl

@[simp] theorem ref_setRequired (s : JSONSchema6) (v) : (s.setRequired v).ref = s.ref := by
  cases s; rfl

@[simp] theorem required_setRequired (s : JSONSchema6) (v) : (s.setRequired v).required = v := by
  cases s; rfl

@[simp] theorem definitions_setRequired (s : JSONSchema6) (v) : (s.setRequired v).definitions = s.definitions := by
  cases s; rfl

@[simp] theorem anyOf_setRequired (s : JSONSchema6) (v) : (s.setRequired v).anyOf = s.anyOf := by
  cases s; rfl

@[simp] theorem oneOf_setRequired (s : JSONSchema6) (v) : (s.setRequired v).oneOf = s.oneOf := by
  cases s; rfl

@[simp] theorem title_setRequired (s : JSONSchema6) (v) : (s.setRequired v).title = s.title := by
  cases s; rfl

@[simp] theorem description_setRequired (s : JSONSchema6) (v) : (s.setRequired v).description = s.description := by
  cases s; rfl

@[simp] theorem default_setRequired (s : JSONSchema6) (v) : (s.setRequired v).default = s.default := by
  cases s; rfl

@[simp] theorem enum_setRequired (s : JSONSchema6) (v) : (s.setRequired v).enum = s.enum := by
  cases s; rfl

@[simp] theorem schema_setDefinitions (s : JSONSchema6) (v) : (s.setDefinitions v).schema = s.schema := by
  cases s; rfl

@[simp] theorem type_setDefinitions (s : JSONSchema6) (v) : (s.setDefinitions v).type = s.type := by
  cases s; rfl

@[simp] theorem properties_setDefinitions (s : JSONSchema6) (v) : (s.setDefinitions v).properties = s.properties := by
  cases s; rfl

@[simp] theorem items_setDefinitions (s : JSONSchema6) (v) : (s.setDefinitions v).items = s.items := by
  cases s; rfl

@[simp] theorem ref_setDefinitions (s : JSONSchema6) (v) : (s.setDefinitions v).ref = s.ref := by
  cases s; rfl

@[simp] theorem required_setDefinitions (s : JSONSchema6) (v) : (s.setDefinitions v).required = s.required := by
  cases s; rfl

@[simp] theorem definitions_setDefinitions (s : JSONSchema6) (v) : (s.setDefinitions v).definitions = v := by
  cases s; rfl

@[simp] theorem anyOf_setDefinitions (s : JSONSchema6) (v) : (s.setDefinitions v).anyOf = s.anyOf := by
  cases s; rfl

@[simp] theorem oneOf_setDefinitions (s : JSONSchema6) (v) : (s.setDefinitions v).oneOf = s.oneOf := by
  cases s; rfl

@[simp] theorem title_setDefinitions (s : JSONSchema6) (v) : (s.setDefinitions v).title = s.title := by
  cases s; rfl

@[simp] theorem description_setDefinitions (s : JSONSchema6) (v) : (s.setDefinitions v).description = s.description := by
  cases s; rfl

@[simp] theorem default_setDefinitions (s : JSONSchema6) (v) : (s.setDefinitions v).default = s.default := by
  cases s; rfl

@[simp] theorem enum_setDefinitions (s : JSONSchema6) (v) : (s.setDefinitions v).enum = s.enum := by
  cases s; rfl

@[simp] theorem schema_setAnyOf (s : JSONSchema6) (v) : (s.setAnyOf v).schema = s.schema := by
  cases s; rfl

@[simp] theorem type_setAnyOf (s : JSONSchema6) (v) : (s.setAnyOf v).type = s.type := by
  cases s; rfl

@[simp] theorem properties_setAnyOf (s : JSONSchema6) (v) : (s.setAnyOf v).properties = s.properties := by
  cases s; rfl

@[simp] theorem items_setAnyOf (s : JSONSchema6) (v) : (s.setAnyOf v).items = s.items := by
  cases s; rfl

@[simp] theorem ref_setAnyOf (s : JSONSchema6) (v) : (s.setAnyOf v).ref = s.ref := by
  cases s; rfl

@[simp] theorem required_setAnyOf (s : JSONSchema6) (v) : (s.setAnyOf v).required = s.required := by
  cases s; rfl

@[simp] theorem definitions_setAnyOf (s : JSONSchema6) (v) : (s.setAnyOf v).definitions = s.definitions := by
  cases s; rfl

@[simp] theorem anyOf_setAnyOf (s : JSONSchema6) (v) : (s.setAnyOf v).anyOf = v := by
  cases s; rfl

@[simp] theorem oneOf_setAnyOf (s : JSONSchema6) (v) : (s.setAnyOf v).oneOf = s.oneOf := by
  cases s; rfl

@[simp] theorem title_setAnyOf (s : JSONSchema6) (v) : (s.setAnyOf v).title = s.title := by
  cases s; rfl

@[simp] theorem description_setAnyOf (s : JSONSchema6) (v) : (s.setAnyOf v).description = s.description := by
  cases s; rfl

@[simp] theorem default_setAnyOf (s : JSONSchema6) (v) : (s.setAnyOf v).default = s.default := by
  cases s; rfl

@[simp] theorem enum_setAnyOf (s : JSONSchema6) (v) : (s.setAnyOf v).enum = s.enum := by
  cases s; rfl

@[simp] theorem schema_setOneOf (s : JSONSchema6) (v) : (s.setOneOf v).schema = s.schema := by
  cases s; rfl

@[simp] theorem type_setOneOf (s : JSONSchema6) (v) : (s.setOneOf v).type = s.type := by
  cases s; rfl

@[simp] theorem properties_setOneOf (s : JSONSchema6) (v) : (s.setOneOf v).properties = s.properties := by
  cases s; rfl

@[simp] theorem items_setOneOf (s : JSONSchema6) (v) : (s.setOneOf v).items = s.items := by
  cases s; rfl

@[simp] theorem ref_setOneOf (s : JSONSchema6) (v) : (s.setOneOf v).ref = s.ref := by
  cases s; rfl

@[simp] theorem required_setOneOf (s : JSONSchema6) (v) : (s.setOneOf v).required = s.required := by
  cases s; rfl

@[simp] theorem definitions_setOneOf (s : JSONSchema6) (v) : (s.setOneOf v).definitions = s.definitions := by
  cases s; rfl

@[simp] theorem anyOf_setOneOf (s : JSONSchema6) (v) : (s.setOneOf v).anyOf = s.anyOf := by
  cases s; rfl

@[simp] theorem oneOf_setOneOf (s : JSONSchema6) (v) : (s.setOneOf v).oneOf = v := by
  cases s; rfl

@[simp] theorem title_setOneOf (s : JSONSchema6) (v) : (s.setOneOf v).title = s.title := by
  cases s; rfl

@[simp] theorem description_setOneOf (s : JSONSchema6) (v) : (s.setOneOf v).description = s.description := by
  cases s; rfl

@[simp] theorem default_setOneOf (s : JSONSchema6) (v) : (s.setOneOf v).default = s.default := by
  cases s; rfl

@[simp] theorem enum_setOneOf (s : JSONSchema6) (v) : (s.setOneOf v).enum = s.enum := by
  cases s; rfl

@[simp] theorem schema_setTitle (s : JSONSchema6) (v) : (s.setTitle v).schema = s.schema := by
  cases s; rfl

@[simp] theorem type_setTitle (s : JSONSchema6) (v) : (s.setTitle v).type = s.type := by
  cases s; rfl

@[simp] theorem properties_setTitle (s : JSONSchema6) (v) : (s.setTitle v).properties = s.properties := by
  cases s; rfl

@[simp] theorem items_setTitle (s : JSONSchema6) (v) : (s.setTitle v).items = s.items := by
  cases s; rfl

@[simp] theorem ref_setTitle (s : JSONSchema6) (v) : (s.setTitle v).ref = s.ref := by
  cases s; rfl

@[simp] theorem required_setTitle (s : JSONSchema6) (v) : (s.setTitle v).required = s.required := by
  cases s; rfl

@[simp] theorem definitions_setTitle (s : JSONSchema6) (v) : (s.setTitle v).definitions = s.definitions := by
  cases s; rfl

@[simp] theorem anyOf_setTitle (s : JSONSchema6) (v) : (s.setTitle v).anyOf = s.anyOf := by
  cases s; rfl

@[simp] theorem oneOf_setTitle (s : JSONSchema6) (v) : (s.setTitle v).oneOf = s.oneOf := by
  cases s; rfl

@[simp] theorem title_setTitle (s : JSONSchema6) (v) : (s.setTitle v).title = v := by
  cases s; rfl

@[simp] theorem description_setTitle (s : JSONSchema6) (v) : (s.setTitle v).description = s.description := by
  cases s; rfl

@[simp] theorem default_setTitle (s : JSONSchema6) (v) : (s.setTitle v).default = s.default := by
  cases s; rfl

@[simp] theorem enum_setTitle (s : JSONSchema6) (v) : (s.setTitle v).enum = s.enum := by
  cases s; rfl

@[simp] theorem schema_setDescription (s : JSONSchema6) (v) : (s.setDescription v).schema = s.schema := by
  cases s; rfl

@[simp] theorem type_setDescription (s : JSONSchema6) (v) : (s.setDescription v).type = s.type := by
  cases s; rfl

@[simp] theorem properties_setDescription (s : JSONSchema6) (v) : (s.setDescription v).properties = s.properties := by
  cases s; rfl

@[simp] theorem items_setDescription (s : JSONSchema6) (v) : (s.setDescription v).items = s.items := by
  cases s; rfl

@[simp] theorem ref_setDescription (s : JSONSchema6) (v) : (s.setDescription v).ref = s.ref := by
  cases s; rfl

@[simp] theorem required_setDescription (s : JSONSchema6) (v) : (s.setDescription v).required = s.required := by
  cases s; rfl

@[simp] theorem definitions_setDescription (s : JSONSchema6) (v) : (s.setDescription v).definitions = s.definitions := by
  cases s; rfl

@[simp] theorem anyOf_setDescription (s : JSONSchema6) (v) : (s.setDescription v).anyOf = s.anyOf := by
  cases s; rfl

@[simp] theorem oneOf_setDescription (s : JSONSchema6) (v) : (s.setDescription v).oneOf = s.oneOf := by
  cases s; rfl

@[simp] theorem title_setDescription (s : JSONSchema6) (v) : (s.setDescription v).title = s.title := by
  cases s; rfl

@[simp] theorem description_setDescription (s : JSONSchema6) (v) : (s.setDescription v).description = v := by
  cases s; rfl

@[simp] theorem default_setDescription (s : JSONSchema6) (v) : (s.setDescription v).default = s.default := by
  cases s; rfl

@[simp] theorem enum_setDescription (s : JSONSchema6) (v) : (s.setDescription v).enum = s.enum := by
  cases s; rfl

@[simp] theorem schema_setDefault (s : JSONSchema6) (v) : (s.setDefault v).schema = s.schema := by
  cases s; rfl

@[simp] theorem type_setDefault (s : JSONSchema6) (v) : (s.setDefault v).type = s.type := by
  cases s; rfl

@[simp] theorem properties_setDefault (s : JSONSchema6) (v) : (s.setDefault v).properties = s.properties := by
  cases s; rfl

@[simp] theorem items_setDefault (s : JSONSchema6) (v) : (s.setDefault v).items = s.items := by
  cases s; rfl

@[simp] theorem ref_setDefault (s : JSONSchema6) (v) : (s.setDefault v).ref = s.ref := by
  cases s; rfl

@[simp] theorem required_setDefault (s : JSONSchema6) (v) : (s.setDefault v).required = s.required := by
  cases s; rfl

@[simp] theorem definitions_setDefault (s : JSONSchema6) (v) : (s.setDefault v).definitions = s.definitions := by
  cases s; rfl

@[simp] theorem anyOf_setDefault (s : JSONSchema6) (v) : (s.setDefault v).anyOf = s.anyOf := by
  cases s; rfl

@[simp] theorem oneOf_setDefault (s : JSONSchema6) (v) : (s.setDefault v).oneOf = s.oneOf := by
  cases s; rfl

@[simp] theorem title_setDefault (s : JSONSchema6) (v) : (s.setDefault v).title = s.title := by
  cases s; rfl

@[simp] theorem description_setDefault (s : JSONSchema6) (v) : (s.setDefault v).description = s.description := by
  cases s; rfl

@[simp] theorem default_setDefault (s : JSONSchema6) (v) : (s.setDefault v).default = v := by
  cases s; rfl

@[simp] theorem enum_setDefault (s : JSONSchema6) (v) : (s.setDefault v).enum = s.enum := by
  cases s; rfl

@[simp] theorem schema_setEnum (s : JSONSchema6) (v) : (s.setEnum v).schema = s.schema := by
  cases s; rfl

@[simp] theorem type_setEnum (s : JSONSchema6) (v) : (s.setEnum v).type = s.type := by
  cases s; rfl

@[simp] theorem properties_setEnum (s : JSONSchema6) (v) : (s.setEnum v).properties = s.properties := by
  cases s; rfl

@[simp] theorem items_setEnum (s : JSONSchema6) (v) : (s.setEnum v).items = s.items := by
  cases s; rfl

@[simp] theorem ref_setEnum (s : JSONSchema6) (v) : (s.setEnum v).ref = s.ref := by
  cases s; rfl

@[simp] theorem required_setEnum (s : JSONSchema6) (v) : (s.setEnum v).required = s.required := by
  cases s; rfl

@[simp] theorem definitions_setEnum (s : JSONSchema6) (v) : (s.setEnum v).definitions = s.definitions := by
  cases s; rfl

@[simp] theorem anyOf_setEnum (s : JSONSchema6) (v) : (s.setEnum v).anyOf = s.anyOf := by
  cases s; rfl

@[simp] theorem oneOf_setEnum (s : JSONSchema6) (v) : (s.setEnum v).oneOf = s.oneOf := by
  cases s; rfl

@[simp] theorem title_setEnum (s : JSONSchema6) (v) : (s.setEnum v).title = s.title := by
  cases s; rfl

@[simp] theorem description_setEnum (s : JSONSchema6) (v) : (s.setEnum v).description = s.description := by
  cases s; rfl

@[simp] theorem default_setEnum (s : JSONSchema6) (v) : (s.setEnum v).default = s.default := by
  cases s; rfl

@[simp] theorem enum_setEnum (s : JSONSchema6) (v) : (s.setEnum v).enum = v := by
  cases s; rfl

end JSONSchema6

/-! Projections of the zero value. -/

@[simp] theorem emptySchema_schema : emptySchema.schema = "" := rfl

@[simp] theorem emptySchema_type : emptySchema.type = Option.none := rfl

@[simp] theorem emptySchema_properties : emptySchema.properties = [] := rfl

@[simp] theorem emptySchema_items : emptySchema.items = Option.none := rfl

@[simp] theorem emptySchema_ref : emptySchema.ref = "" := rfl

@[simp] theorem emptySchema_required : emptySchema.required = [] := rfl

@[simp] theorem emptySchema_definitions : emptySchema.definitions = [] := rfl

@[simp] theorem emptySchema_anyOf : emptySchema.anyOf = [] := rfl

@[simp] theorem emptySchema_oneOf : emptySchema.oneOf = [] := rfl

@[simp] theorem emptySchema_title : emptySchema.title = "" := rfl

@[simp] theorem emptySchema_description : emptySchema.description = "" := rfl

@[simp] theorem emptySchema_default : emptySchema.default = Option.none := rfl

@[simp] theorem emptySchema_enum : emptySchema.enum = [] := rfl

/-! ## Supporting lemmas -/

/-- A scalar node never carries an `anyOf` list. -/
theorem processScalar_anyOf_nil (name : String) (idm : IDTypeMapping) :
    (processScalar name idm).anyOf = [] := by
  unfold processScalar
  split <;> (try split) <;> rfl

/-- A resolved type-reference node never carries an `anyOf` list (the
`anyOf` wrapper produced for nullable array items lives one level below,
inside the `items` field). -/
theorem processTypeRef_anyOf_nil (r : IntrospectionTypeRef) (o : Options) :
    (processTypeRef r o).anyOf = [] := by
  induction r, o using processTypeRef.induct <;>
    (simp only [processTypeRef]; (try split) <;> simp_all [processScalar_anyOf_nil])

/-- Looking up in an upserted map: the upserted key wins, everything else
falls through. -/
theorem lookupKey_upsert {α : Type} (m : List (String × α)) (k : String) (v : α)
    (k' : String) :
    lookupKey (upsert m k v) k' = if k = k' then Option.some v else lookupKey m k' := by
  induction m with
  | nil => simp [upsert, lookupKey]
  | cons hd tl ih =>
    obtain ⟨a, b⟩ := hd
    by_cases hak : a = k
    · subst hak
      simp only [upsert, if_pos rfl, lookupKey]
      split_ifs <;> simp_all [lookupKey]
    · simp only [upsert, if_neg hak, lookupKey, ih]
      split_ifs <;> simp_all

/-- Characterization of the definitions loop: a key resolves to the last
non-root type of that name, falling back to the initial map. -/
theorem lookupKey_buildDefinitions (ts : List IntrospectionType) (o : Options)
    (d0 : List (String × JSONSchema6)) (k : String) :
    lookupKey (buildDefinitions ts o d0) k =
      match lastNonRootDef ts o k with
      | Option.some v => Option.some v
      | Option.none => lookupKey d0 k := by
  induction ts generalizing d0 with
  | nil => simp [buildDefinitions, lastNonRootDef]
  | cons t rest ih =>
    rw [show buildDefinitions (t :: rest) o d0
        = buildDefinitions rest o
            (if !(isRootType t.name) then upsert d0 t.name (processType t o) else d0)
      from rfl]
    rw [ih]
    cases hrest : lastNonRootDef rest o k with
    | some v => simp [lastNonRootDef, hrest]
    | none =>
      simp only [lastNonRootDef, hrest]
      by_cases hroot : isRootType t.name
      · simp [hroot]
      · simp only [hroot, Bool.not_false, Bool.true_and, if_pos]
        rw [lookupKey_upsert]
        by_cases hnk : t.name = k
        · simp [hnk]
        · simp [hnk]

/-- No root-named key ever resolves in the definitions description. -/
theorem lastNonRootDef_root (ts : List IntrospectionType) (o : Options) (k : String)
    (h : isRootType k = true) : lastNonRootDef ts o k = Option.none := by
  induction ts with
  | nil => rfl
  | cons t rest ih =>
    simp only [lastNonRootDef, ih]
    by_cases hnk : t.name = k
    · rw [hnk, h]
      simp
    · simp [hnk]

/-- A key that names no type in the list does not resolve. -/
theorem lastNonRootDef_of_forall_ne (ts : List IntrospectionType) (o : Options)
    (k : String) (h : ∀ t ∈ ts, t.name ≠ k) : lastNonRootDef ts o k = Option.none := by
  induction ts with
  | nil => rfl
  | cons t rest ih =>
    simp only [lastNonRootDef, ih (fun u hu => h u (List.mem_cons_of_mem _ hu))]
    have hne := h t (List.mem_cons_self _ _)
    simp [hne]

/-- With `ignoreInternals` set, no surviving type has a `__`-prefixed name. -/
theorem not_internal_of_mem_filterTypes (types : List IntrospectionType)
    (t : IntrospectionType) (r : String) (h : t ∈ filterTypes types true) :
    t.name ≠ "__" ++ r := by
  intro he
  simp only [filterTypes, Bool.not_true] at h
  rw [if_neg (by simp)] at h
  rw [List.mem_filter] at h
  have hp := h.2
  rw [he] at hp
  have hdata : ("__" ++ r).data = '_' :: '_' :: r.data := by simp [String.data_append]
  have hlen : ("__" ++ r).length = 2 + r.length := by
    simp [String.length_append]
    decide
  rw [hdata, hlen] at hp
  simp at hp

/-- The definitions map of a conversion, as a function of the document's
type list. -/
theorem fromIntrospectionQuery_definitions_eq (doc : IntrospectionQuery) (o : Options) :
    (FromIntrospectionQuery doc (Option.some o)).1.definitions =
      match doc.schema.types with
      | Option.some types => buildDefinitions (filterTypes types o.ignoreInternals) o []
      | Option.none => [] := by
  obtain ⟨⟨qt, mt, tys⟩⟩ := doc
  cases qt <;> cases mt <;> cases tys <;>
    simp only [FromIntrospectionQuery] <;>
    (repeat' split) <;> simp

/-! ## Claim theorems -/

/-- C2: for every type reference whose outermost kind is `NON_NULL` with a
present inner reference, `processTypeRef` returns exactly the node
returned for the inner reference alone; in particular a `NON_NULL`
wrapping a `LIST` wrapping a `SCALAR` resolves to the same node as the
unwrapped `LIST`-of-`SCALAR` chain. -/
theorem claim2_nonNull_is_transparent :
    (∀ (nm : Option String) (inner : IntrospectionTypeRef) (o : Options),
      processTypeRef (.mk "NON_NULL" nm (.some inner)) o = processTypeRef inner o)
    ∧ (∀ (nm1 nm2 sname : Option String) (sOf : OptionTypeRef) (o : Options),
      processTypeRef
          (.mk "NON_NULL" nm1 (.some (.mk "LIST" nm2 (.some (.mk "SCALAR" sname sOf))))) o
        = processTypeRef (.mk "LIST" nm2 (.some (.mk "SCALAR" sname sOf))) o) := by
  constructor
  · intro nm inner o
    cases nm <;> rfl
  · intro nm1 nm2 sname sOf o
    cases nm1 <;> rfl

/-- C3: resolving a `LIST` reference with a present inner reference yields
`{type: array, items: resolve(inner)}`, and the items node is the
`{anyOf: [resolve(inner), {type: null}]}` wrapper exactly when
`nullableArrayItems` is set and the inner reference's kind is not
`NON_NULL`. -/
theorem claim3_list_items :
    ∀ (nm : Option String) (inner : IntrospectionTypeRef) (o : Options),
      (processTypeRef (.mk "LIST" nm (.some inner)) o =
        (if o.nullableArrayItems && !(isRequired inner) then
          (emptySchema.setType (Option.some (.str "array"))).setItems (Option.some
            (emptySchema.setAnyOf
              [processTypeRef inner o, emptySchema.setType (Option.some (.str "null"))]))
        else
          (emptySchema.setType (Option.some (.str "array"))).setItems
            (Option.some (processTypeRef inner o))))
      ∧ ((processTypeRef (.mk "LIST" nm (.some inner)) o).items =
          Option.some (emptySchema.setAnyOf
            [processTypeRef inner o, emptySchema.setType (Option.some (.str "null"))])
         ↔ (o.nullableArrayItems = true ∧ inner.kind ≠ "NON_NULL")) := by
  intro nm inner o
  have hnil := processTypeRef_anyOf_nil inner o
  have heq : processTypeRef (.mk "LIST" nm (.some inner)) o =
      if o.nullableArrayItems && !(isRequired inner) then
        (emptySchema.setType (Option.some (.str "array"))).setItems (Option.some
          (emptySchema.setAnyOf
            [processTypeRef inner o, emptySchema.setType (Option.some (.str "null"))]))
      else
        (emptySchema.setType (Option.some (.str "array"))).setItems
          (Option.some (processTypeRef inner o)) := by
    by_cases h : (o.nullableArrayItems && !(isRequired inner)) = true
    · cases nm <;> simp only [processTypeRef, h, if_true] <;> rfl
    · rw [Bool.not_eq_true] at h
      cases nm <;> simp only [processTypeRef, h, Bool.false_eq_true, if_false]
  refine ⟨heq, ?_⟩
  rw [heq]
  by_cases h : (o.nullableArrayItems && !(isRequired inner)) = true
  · rw [if_pos h]
    simp only [JSONSchema6.items_setItems, true_iff]
    rw [Bool.and_eq_true, Bool.not_eq_true'] at h
    refine ⟨h.1, ?_⟩
    have h2 := h.2
    simp only [isRequired, beq_eq_false_iff_ne, ne_eq] at h2
    exact h2
  · rw [if_neg h]
    simp only [JSONSchema6.items_setItems, Option.some.injEq]
    apply iff_of_false
    · intro hcontra
      have hco := congrArg JSONSchema6.anyOf hcontra
      simp only [hnil, JSONSchema6.anyOf_setAnyOf] at hco
      exact List.noConfusion hco
    · intro hcond
      apply h
      rw [Bool.and_eq_true, Bool.not_eq_true']
      refine ⟨hcond.1, ?_⟩
      simp only [isRequired, beq_eq_false_iff_ne, ne_eq]
      exact hcond.2

/-- C7 counterexample: a `LIST` wrapper with no inner reference does NOT
degrade to an empty node — the produced node carries `type: array`. -/
theorem claim7_list_no_inner_counterexample :
    (processTypeRef (.mk "LIST" Option.none .none) DefaultOptions).type
      = Option.some (SchemaTy.str "array")
    ∧ processTypeRef (.mk "LIST" Option.none .none) DefaultOptions ≠ emptySchema := by
  refine ⟨rfl, ?_⟩
  intro h
  have hco := congrArg JSONSchema6.type h
  simp only [JSONSchema6.type_setType, emptySchema_type] at hco
  exact Option.noConfusion hco

/-- C7 amended: a `NON_NULL` wrapper with no inner reference and a leaf with
a missing name resolve to the empty schema node (no type, no ref); a `LIST`
wrapper with no inner reference resolves to a node carrying only
`type: array` (still no ref); no error is ever raised (`processTypeRef` is
total). -/
theorem claim7_malformed_chain_degrades :
    (∀ (nm : Option String) (o : Options),
      processTypeRef (.mk "NON_NULL" nm .none) o = emptySchema)
    ∧ (∀ (ot : OptionTypeRef) (o : Options),
      processTypeRef (.mk "SCALAR" Option.none ot) o = emptySchema)
    ∧ (∀ (k : String) (ot : OptionTypeRef) (o : Options),
      k ≠ "NON_NULL" → k ≠ "LIST" → k ≠ "SCALAR" →
      processTypeRef (.mk k Option.none ot) o = emptySchema)
    ∧ (∀ (nm : Option String) (o : Options),
      processTypeRef (.mk "LIST" nm .none) o
        = emptySchema.setType (Option.some (.str "array"))) := by
  refine ⟨?_, ?_, ?_, ?_⟩
  · intro nm o
    cases nm <;> rfl
  · intro ot o
    cases ot <;> rfl
  · intro k ot o h1 h2 h3
    cases ot <;> (rw [processTypeRef.eq_def]; split <;> simp_all)
  · intro nm o
    cases nm <;> rfl

/-- C7 amended witness: a leaf of kind `OBJECT` with no name degrades to the
empty node. -/
theorem claim7_malformed_chain_degrades_witness :
    processTypeRef (.mk "OBJECT" Option.none .none) DefaultOptions = emptySchema :=
  claim7_malformed_chain_degrades.2.2.1 "OBJECT" .none DefaultOptions
    (by decide) (by decide) (by decide)

/-- C4: evaluating `processType` at a concrete `UNION` type shows the bug:
`delete(schema.Properties, "type")` removes the key `"type"` from the
(empty) properties map instead of clearing the `Type` field, so the union
node still carries `type: object`, while its `oneOf` list is built
correctly — one `$ref` to `#/definitions/<name>` per possible type, in
order. -/
theorem claim4_union_keeps_object_type :
    (processType petUnionType DefaultOptions).type = Option.some (SchemaTy.str "object")
    ∧ (processType petUnionType DefaultOptions).oneOf
        = [emptySchema.setRef "#/definitions/Cat", emptySchema.setRef "#/definitions/Dog"]
    ∧ (processType petUnionType DefaultOptions).properties = [] := ⟨rfl, rfl, rfl⟩

/-- C5: for every named type of kind `ENUM`, `processType` produces a node
with `type: string` whose `anyOf` has one entry per enum value, in order,
where each entry's `enum` list is the singleton of the value's name and
both `title` and `description` are the value's description text. -/
theorem claim5_enum_translation :
    ∀ (n d : String) (f : Option (List IntrospectionField))
      (i : Option (List IntrospectionInput)) (itf : Option (List TypeRef))
      (ev : Option (List IntrospectionEnum)) (pt : Option (List IntrospectionType))
      (o : Options),
      (processType (.mk "ENUM" n d f i itf ev pt) o).type = Option.some (.str "string")
      ∧ (processType (.mk "ENUM" n d f i itf ev pt) o).anyOf =
          (ev.getD []).map (fun v =>
            ((emptySchema.setEnum [v.name]).setTitle v.description).setDescription
              v.description) := by
  intro n d f i itf ev pt o
  cases ev <;> exact ⟨rfl, rfl⟩

/-- C10: for every scalar name — the built-ins `ID`, `String`, `Int`,
`Float`, `Boolean` included — the node produced by `processScalar` carries
`title` equal to that scalar name. -/
theorem claim10_scalar_title :
    ∀ (name : String) (idm : IDTypeMapping), (processScalar name idm).title = name := by
  intro name idm
  unfold processScalar
  split <;> (try split) <;> rfl

/-- C8: the CLI conversion step rejects every `idTypeMapping` value other
than `string`, `number` and `both` with a configuration error surfaced to
the caller, before any schema is produced. -/
theorem claim8_invalid_id_mapping_rejected :
    ∀ (idType : String) (ign nul : Bool) (doc : IntrospectionQuery),
      idType ≠ "string" → idType ≠ "number" → idType ≠ "both" →
      runConversion idType ign nul doc
        = Except.error ("invalid id-type mapping: " ++ idType) := by
  intro idType ign nul doc h1 h2 h3
  have hv : IsValidIDTypeMapping idType = false := by
    simp [IsValidIDTypeMapping, h1, h2, h3]
  simp [runConversion, hv]

/-- C8 witness: conversion configured with `id-type = uuid` fails. -/
theorem claim8_invalid_id_mapping_rejected_witness :
    runConversion "uuid" true false
        (IntrospectionQuery.mk (IntrospectionSchema.mk Option.none Option.none Option.none))
      = Except.error ("invalid id-type mapping: " ++ "uuid") :=
  claim8_invalid_id_mapping_rejected "uuid" true false
    (IntrospectionQuery.mk (IntrospectionSchema.mk Option.none Option.none Option.none))
    (by decide) (by decide) (by decide)

/-- C9: the core conversion is total — for every introspection document and
every options argument (nil options falling back to the defaults
`ignoreInternals = true`, `nullableArrayItems = false`,
`idTypeMapping = string`) it returns a schema whose `$schema` is the
draft-06 identifier together with a nil error. -/
theorem claim9_conversion_never_fails :
    ∀ (doc : IntrospectionQuery) (o : Option Options),
      (FromIntrospectionQuery doc o).2 = Option.none
      ∧ (FromIntrospectionQuery doc o).1.schema = "http://json-schema.org/draft-06/schema#"
      ∧ FromIntrospectionQuery doc Option.none
          = FromIntrospectionQuery doc (Option.some DefaultOptions)
      ∧ DefaultOptions
          = { ignoreInternals := true, nullableArrayItems := false,
              idTypeMapping := "string" } := by
  intro doc o
  refine ⟨rfl, ?_, rfl, rfl⟩
  obtain ⟨⟨qt, mt, tys⟩⟩ := doc
  cases o <;> cases qt <;> cases mt <;> cases tys <;>
    simp only [FromIntrospectionQuery] <;>
    (repeat' split) <;> simp

/-- C6 counterexample: on the scenario document the return node is NOT the
claimed two-field node — `processScalar` also stamps `title: "Boolean"`
onto it. -/
theorem claim6_ping_return_counterexample :
    (((lookupKey (FromIntrospectionQuery pingDoc Option.none).1.properties "Query").bind
        (fun q => lookupKey q.properties "ping")).bind
      (fun p => lookupKey p.properties "return")
      ≠ Option.some claimedPingReturnNode)
    ∧ claimedPingReturnNode.title = "" := by
  refine ⟨?_, rfl⟩
  intro h
  have hnode :
      (((emptySchema.setTitle "Boolean").setType
          (Option.some (.str "boolean"))).setDescription booleanScalarDescription)
        = claimedPingReturnNode := by
    have hpath :
        (((lookupKey (FromIntrospectionQuery pingDoc Option.none).1.properties "Query").bind
            (fun q => lookupKey q.properties "ping")).bind
          (fun p => lookupKey p.properties "return"))
          = Option.some
              (((emptySchema.setTitle "Boolean").setType
                  (Option.some (.str "boolean"))).setDescription booleanScalarDescription) := rfl
    rw [hpath] at h
    exact Option.some.inj h
  have htitle := congrArg JSONSchema6.title hnode
  simp only [JSONSchema6.title_setDescription, JSONSchema6.title_setType,
    JSONSchema6.title_setTitle, claimedPingReturnNode, emptySchema_title] at htitle
  exact absurd htitle (by decide)

/-- C6 amended: on the scenario document the return node is exactly
`{type: boolean, title: "Boolean", description: <Boolean scalar text>}`
(nothing else set), and `properties.Query.required` is exactly
`["ping"]`. -/
theorem claim6_ping_scenario :
    ((((lookupKey (FromIntrospectionQuery pingDoc Option.none).1.properties "Query").bind
        (fun q => lookupKey q.properties "ping")).bind
      (fun p => lookupKey p.properties "return"))
      = Option.some
          (((emptySchema.setTitle "Boolean").setType
              (Option.some (.str "boolean"))).setDescription booleanScalarDescription))
    ∧ Option.map JSONSchema6.required
        (lookupKey (FromIntrospectionQuery pingDoc Option.none).1.properties "Query")
      = Option.some ["ping"] := ⟨rfl, rfl⟩

/-- C1 counterexample: the root exclusion compares against the literal
names `Query`/`Mutation`, not against the declared root's name — with a
query root declared as `RootQuery`, `definitions` DOES contain the key
`RootQuery`, the declared query root type's name. -/
theorem claim1_declared_rootname_in_definitions :
    customRootDoc.schema.queryType = Option.some ⟨"RootQuery"⟩
    ∧ lookupKey (FromIntrospectionQuery customRootDoc Option.none).1.definitions "RootQuery"
        = Option.some (processType rootQueryType DefaultOptions) := ⟨rfl, rfl⟩

/-- C1 amended: for every document and options, a key of the definitions
map resolves exactly to `processType` of the last type of that name that
survives internal filtering and is not named literally `Query` or
`Mutation`; in particular the keys `Query` and `Mutation` never occur, and
no `__`-prefixed key occurs when `ignoreInternals` is true. -/
theorem claim1_definitions_exact (doc : IntrospectionQuery) (o : Options) :
    (∀ k, lookupKey (FromIntrospectionQuery doc (Option.some o)).1.definitions k
      = (match doc.schema.types with
         | Option.none => Option.none
         | Option.some types =>
           lastNonRootDef (filterTypes types o.ignoreInternals) o k))
    ∧ lookupKey (FromIntrospectionQuery doc (Option.some o)).1.definitions "Query"
        = Option.none
    ∧ lookupKey (FromIntrospectionQuery doc (Option.some o)).1.definitions "Mutation"
        = Option.none
    ∧ (∀ r, lookupKey
        (FromIntrospectionQuery doc
          (Option.some { o with ignoreInternals := true })).1.definitions ("__" ++ r)
        = Option.none) := by
  have hchar : ∀ (o' : Options) (k : String),
      lookupKey (FromIntrospectionQuery doc (Option.some o')).1.definitions k
        = (match doc.schema.types with
           | Option.none => Option.none
           | Option.some types =>
             lastNonRootDef (filterTypes types o'.ignoreInternals) o' k) := by
    intro o' k
    rw [fromIntrospectionQuery_definitions_eq]
    cases doc.schema.types with
    | none => rfl
    | some types =>
      simp only
      rw [lookupKey_buildDefinitions]
      cases lastNonRootDef (filterTypes types o'.ignoreInternals) o' k <;> simp [lookupKey]
  refine ⟨hchar o, ?_, ?_, ?_⟩
  · rw [hchar o "Query"]
    cases doc.schema.types with
    | none => rfl
    | some types =>
      simp only
      rw [lastNonRootDef_root _ _ _ (by decide)]
  · rw [hchar o "Mutation"]
    cases doc.schema.types with
    | none => rfl
    | some types =>
      simp only
      rw [lastNonRootDef_root _ _ _ (by decide)]
  · intro r
    rw [hchar _ ("__" ++ r)]
    cases doc.schema.types with
    | none => rfl
    | some types =>
      simp only
      rw [lastNonRootDef_of_forall_ne]
      intro t ht
      exact not_internal_of_mem_filterTypes types t r ht

end GqlToJsonSchema
